import Mathlib

/-!
Shallow embedding of the next-proxies-pod supervisor core:
the process supervisor (`src/process/mod.rs`), the reporting scheduler
(`src/main.rs`) and the configuration synchronizer (`src/config/mod.rs`),
together with theorems settling the behavioural claims about them.
-/

namespace NextProxiesPod

/-- Modelled from the spec: the type `FetchStatus` is imported and matched on by
`main.rs` (`use config::FetchStatus;`, `Some(FetchStatus::Updated)`), but its
definition is not present in the `config` module sources; the spec gives its
variants as `Unchanged | Updated`. -/
inductive FetchStatus
  | Unchanged
  | Updated
deriving DecidableEq, Repr

/-- `ReportingTask` (main.rs): the scheduler's task variants, carrying no payload. -/
inductive ReportingTask
  | FetchConfig
  | PostStats
  | ReloadConfig
deriving DecidableEq, Repr

/-- The shape of the `io::Result` values the supervisor returns, reduced to the
outcome kinds the code distinguishes: success, `ErrorKind::NotFound`
(reload with no process), and any other error (spawn failure, failed SIGHUP). -/
inductive IoOutcome
  | ok
  | errNotFound
  | errOther
deriving DecidableEq, Repr

/-- Outcome of an OS `kill` call (nix), as seen by the caller. -/
inductive KillResult
  | ok
  | err
deriving DecidableEq, Repr

/-- `ProcessManager` shared state (process/mod.rs:10-15): the pid slot behind
the `Arc<Mutex<Option<u32>>>`, plus the construction-time fields. -/
structure PMState where
  pid : Option Nat
  configPath : String
  logout : Option Bool
deriving DecidableEq, Repr

/-- `ProcessManager::new` (process/mod.rs:18-24): empty pid slot. -/
def ProcessManager.new (configPath : String) (logout : Option Bool) : PMState :=
  { pid := none, configPath := configPath, logout := logout }

/-- What one `start` call did: its returned result, the state it leaves behind,
and the pids of OS processes it spawned. -/
structure StartOutcome where
  result : IoOutcome
  state : PMState
  spawned : List Nat
deriving DecidableEq, Repr

/-- `ProcessManager::start` (process/mod.rs:27-108).  `spawnResult` is the OS
spawn outcome (`some newPid` on success, `none` when `spawn()` fails).  The code
spawns unconditionally — there is no check of the current pid slot — and on
success overwrites the slot with the new child's id.  On spawn failure the
error propagates via `?` and the state is untouched. -/
def ProcessManager.start (s : PMState) (spawnResult : Option Nat) : StartOutcome :=
  match spawnResult with
  | none => { result := .errOther, state := s, spawned := [] }
  | some newPid =>
      { result := .ok
        state := { s with pid := some newPid }
        spawned := [newPid] }

/-- What one `stop` call did: the returned result, the state it leaves behind,
the pids it attempted to deliver SIGTERM to, and how many terminal waits on the
child it performed. -/
structure StopOutcome where
  result : IoOutcome
  state : PMState
  sigterms : List Nat
  waits : Nat
deriving DecidableEq, Repr

/-- `ProcessManager::stop` (process/mod.rs:111-152): reads the pid slot; if a
pid is present it attempts SIGTERM delivery, discarding the kill result
(`let _ = kill(...)`); it performs no wait on the child, leaves the pid slot
untouched, and returns `Ok(())` on every path — also when no process is
running and also when the OS refuses the signal (`kr = .err`). -/
def ProcessManager.stop (s : PMState) (kr : KillResult) : StopOutcome :=
  match s.pid, kr with
  | some p, _ => { result := .ok, state := s, sigterms := [p], waits := 0 }
  | none, _ => { result := .ok, state := s, sigterms := [], waits := 0 }

/-- What a query through the pid mutex observed: whether the caller had to wait
for the lock, and the boolean it returned once the lock was held. -/
structure QueryOutcome where
  waitedForLock : Bool
  value : Bool
deriving DecidableEq, Repr

/-- `ProcessManager::is_running` (process/mod.rs:188-191):
`let pid = *self.pid.lock().await; pid.is_some()` — it awaits the mutex
(so a momentarily busy lock makes the caller wait) and then reports whether a
pid is stored.  There is no `try_lock` path in the code. -/
def ProcessManager.is_running (lockBusy : Bool) (pid : Option Nat) : QueryOutcome :=
  { waitedForLock := lockBusy, value := pid.isSome }

/-- The spec's words for `isRunning()` (refinement comparison for the claim
about it): a best-effort lock acquisition that treats a momentarily-unavailable
lock as "not running" and never waits. -/
def is_running_specModel (lockBusy : Bool) (pid : Option Nat) : QueryOutcome :=
  if lockBusy then { waitedForLock := false, value := false }
  else { waitedForLock := false, value := pid.isSome }

/-- The value `is_running` returns on an uncontended lock, as a state query. -/
def ProcessManager.is_running_value (s : PMState) : Bool :=
  (ProcessManager.is_running false s.pid).value

/-- What one `reload` call did: the returned result, the state it leaves
behind, the pids it sent SIGHUP to, and any processes it spawned. -/
structure ReloadOutcome where
  result : IoOutcome
  state : PMState
  sighups : List Nat
  spawned : List Nat
deriving DecidableEq, Repr

/-- `ProcessManager::reload`, the unix variant (process/mod.rs:156-176): if a
pid is stored, send SIGHUP — a kill error is surfaced as an `Other` io error,
success returns `Ok(())`; with no stored pid it returns an
`ErrorKind::NotFound` error ("No running sing-box process found").  No branch
spawns a process or changes the state. -/
def ProcessManager.reload (s : PMState) (kr : KillResult) : ReloadOutcome :=
  match s.pid with
  | some p =>
      match kr with
      | .ok => { result := .ok, state := s, sighups := [p], spawned := [] }
      | .err => { result := .errOther, state := s, sighups := [p], spawned := [] }
  | none => { result := .errNotFound, state := s, sighups := [], spawned := [] }

/-- What executing the `ReloadConfig` task did: how many times it invoked the
supervisor's `reload`, which SIGHUPs were sent and which processes spawned. -/
structure ReloadTaskEffect where
  reloadCalls : Nat
  sighups : List Nat
  spawned : List Nat
deriving DecidableEq, Repr

/-- `ReportingTask::handle`, `ReloadConfig` arm (main.rs:66-74):
`if matches!(config.fetch_status, Some(FetchStatus::Updated))` invoke
`manager.reload()` (errors are logged, not propagated); on any other recorded
status — `Some(Unchanged)` or `None` — the arm does nothing. -/
def handleReloadConfig (fetchStatus : Option FetchStatus) (pm : PMState)
    (kr : KillResult) : ReloadTaskEffect × PMState :=
  match fetchStatus with
  | some .Updated =>
      let r := ProcessManager.reload pm kr
      ({ reloadCalls := 1, sighups := r.sighups, spawned := r.spawned }, r.state)
  | _ => ({ reloadCalls := 0, sighups := [], spawned := [] }, pm)

/-- State of `reporting_tasks_producer` (main.rs:80-103) seen as a machine
driven by interval ticks: whether the pre-loop `interval.tick()` has fired yet,
and the tasks sent into the channel so far. -/
structure ProducerState where
  firstTickConsumed : Bool
  sent : List ReportingTask
deriving DecidableEq, Repr

/-- One interval tick delivered to `reporting_tasks_producer`: the tick before
the loop (main.rs:84) is consumed without sending; every later tick runs one
loop iteration, which sends `FetchConfig`, `PostStats`, `ReloadConfig` in that
order (main.rs:87-101).  This models the open-queue path: a failed send breaks
the loop, which the claims about the producer do not exercise. -/
def producerTick (s : ProducerState) : ProducerState :=
  if s.firstTickConsumed then
    { s with
        sent := s.sent ++
          [ReportingTask.FetchConfig, ReportingTask.PostStats, ReportingTask.ReloadConfig] }
  else
    { s with firstTickConsumed := true }

/-- Producer state at spawn: no tick seen, nothing sent. -/
def producerInit : ProducerState := { firstTickConsumed := false, sent := [] }

/-- Producer state after `n` interval ticks have been delivered. -/
def producerRun : Nat → ProducerState
  | 0 => producerInit
  | n + 1 => producerTick (producerRun n)

/-- `ConfigResponse` (config/mod.rs:14-26): the worker runtime configuration
(kept abstract as its serialized form) and `guard_config.reporting_cycle`. -/
structure ConfigResponse where
  runtime : String
  reportingCycle : Nat
deriving DecidableEq, Repr

/-- The mutable state of `ConfigManager` the scheduler claims refer to: the
last applied configuration and the recorded status of the last fetch. -/
structure ConfigMState where
  config : Option ConfigResponse
  fetchStatus : Option FetchStatus
deriving DecidableEq, Repr

/-- Modelled from the spec: `main.rs` reads `config.fetch_status` after each
fetch cycle, but the `config` module sources carry neither the field nor the
code computing it.  Per the spec, a successful fetch compares the newly fetched
configuration against the last applied one — `Unchanged` exactly when they are
equal, `Updated` otherwise — records that status and the new configuration; a
failed fetch (`response = none`) propagates the error and leaves the state
untouched. -/
def ConfigManager.fetch (s : ConfigMState) (response : Option ConfigResponse) :
    IoOutcome × ConfigMState :=
  match response with
  | none => (.errOther, s)
  | some resp =>
      let status := if s.config = some resp then FetchStatus.Unchanged else FetchStatus.Updated
      (.ok, { config := some resp, fetchStatus := some status })

/-- `spawn_reporting_tasks` (main.rs:126) reads the reporting interval from the
configuration present at spawn time:
`config.config.as_ref().unwrap().guard_config.reporting_cycle`. -/
def spawnReportingIntervalSecs (startupConfig : ConfigResponse) : Nat :=
  startupConfig.reportingCycle

/-- Joint state of the spawned producer and consumer (main.rs:120-155): the
interval seconds captured by `reporting_tasks_producer` at spawn, the absolute
time of its next tick, and the consumer-owned active configuration. -/
structure PipelineState where
  producerIntervalSecs : Nat
  nextTickAt : Nat
  consumerConfig : ConfigResponse
deriving DecidableEq, Repr

/-- Events driving the pipeline: an interval tick firing in the producer, or a
successful `FetchConfig` cycle completing in the consumer. -/
inductive PipelineEvent
  | tick
  | fetched (resp : ConfigResponse)
deriving DecidableEq, Repr

/-- How the code reacts to pipeline events: the producer's `tokio::time::interval`
is constructed once from the captured `interval_secs` (main.rs:81,142), so a
tick schedules the next tick that many seconds later; a completed fetch updates
only the consumer's `ConfigManager` — nothing in main.rs feeds a new interval
back into the producer. -/
def pipelineStep (s : PipelineState) : PipelineEvent → PipelineState
  | .tick => { s with nextTickAt := s.nextTickAt + s.producerIntervalSecs }
  | .fetched resp => { s with consumerConfig := resp }

/-- Pipeline state after a sequence of events, under the code's behaviour. -/
def pipelineRun (s : PipelineState) : List PipelineEvent → PipelineState
  | [] => s
  | e :: es => pipelineRun (pipelineStep s e) es

/-- The spec's words for the interval (refinement comparison): re-read from the
active configuration on every `FetchConfig` cycle, taking effect from the next
tick. -/
def pipelineStepSpecModel (s : PipelineState) : PipelineEvent → PipelineState
  | .tick => { s with nextTickAt := s.nextTickAt + s.producerIntervalSecs }
  | .fetched resp =>
      { s with consumerConfig := resp, producerIntervalSecs := resp.reportingCycle }

/-- Pipeline state after a sequence of events, under the spec's re-read model. -/
def pipelineRunSpecModel (s : PipelineState) : List PipelineEvent → PipelineState
  | [] => s
  | e :: es => pipelineRunSpecModel (pipelineStepSpecModel s e) es

/-- The two tasks racing after a successful `start`: a `stop()` call and the
exit-watcher task spawned at process/mod.rs:93-105. -/
inductive Actor
  | stopTask
  | watcher
deriving DecidableEq, Repr

/-- Combined state for interleavings of `stop()` with the exit watcher, after a
successful `start` of a child identified by `h`.  `slot` is the contents of the
`child_arc` guarded `Option<Child>` slot; `pid` the shared pid slot;
`watcherLocal` the child the watcher holds after `guard.take()`; `sigterms`
the SIGTERM deliveries attempted; `waitsBy` which task performed a terminal
`wait` on the child; `tookBy` which task took the handle out of the slot.
Program counters record how far each task has run. -/
structure RaceState where
  slot : Option Nat
  pid : Option Nat
  stopPC : Nat
  watcherPC : Nat
  watcherLocal : Option Nat
  sigterms : List Nat
  waitsBy : List Actor
  tookBy : Option Actor
deriving DecidableEq, Repr

/-- The state right after `start` returned for a child `h`: the child sits in
the `child_arc` slot, its id in the pid slot, neither task has run. -/
def raceInit (h : Nat) : RaceState :=
  { slot := some h, pid := some h, stopPC := 0, watcherPC := 0,
    watcherLocal := none, sigterms := [], waitsBy := [], tookBy := none }

/-- One step of `stop()` (process/mod.rs:111-152): a single atomic read of the
pid slot followed (when a pid is present) by a SIGTERM attempt.  `stop` never
touches the `child_arc` slot and performs no wait on the child. -/
def stepStop (s : RaceState) : RaceState :=
  match s.stopPC with
  | 0 =>
      match s.pid with
      | some p => { s with stopPC := 1, sigterms := s.sigterms ++ [p] }
      | none => { s with stopPC := 1 }
  | _ => s

/-- One step of the exit watcher (process/mod.rs:93-105): first `guard.take()`
on the slot; then, if it took a child, the terminal `ch.wait().await`; then the
pid cleanup `*pid_guard = None`.  If the slot was already empty it does
nothing further. -/
def stepWatcher (s : RaceState) : RaceState :=
  match s.watcherPC with
  | 0 =>
      match s.slot with
      | some h =>
          { s with watcherPC := 1, slot := none, watcherLocal := some h,
                   tookBy := some Actor.watcher }
      | none => { s with watcherPC := 1, watcherLocal := none }
  | 1 =>
      match s.watcherLocal with
      | some _ => { s with watcherPC := 2, waitsBy := s.waitsBy ++ [Actor.watcher] }
      | none => { s with watcherPC := 3 }
  | 2 => { s with watcherPC := 3, watcherLocal := none, pid := none }
  | _ => s

/-- Run whichever task the scheduler picked for one step. -/
def raceStep (s : RaceState) : Actor → RaceState
  | .stopTask => stepStop s
  | .watcher => stepWatcher s

/-- Run an interleaving: the schedule lists which task steps at each moment. -/
def raceRun (s : RaceState) : List Actor → RaceState
  | [] => s
  | a :: rest => raceRun (raceStep s a) rest

/-- Reachability invariant of the race from `raceInit h`: `stop` is before or
after its single atomic step, and the watcher walks the chain
take → wait → clear, being at every stage the unique taker and the unique
waiter; the pid slot empties only at the watcher's final step. -/
def RaceInv (h : Nat) (s : RaceState) : Prop :=
  (s.stopPC = 0 ∨ s.stopPC = 1) ∧
  ((s.watcherPC = 0 ∧ s.slot = some h ∧ s.watcherLocal = none ∧
      s.tookBy = none ∧ s.waitsBy = [] ∧ s.pid = some h) ∨
   (s.watcherPC = 1 ∧ s.slot = none ∧ s.watcherLocal = some h ∧
      s.tookBy = some Actor.watcher ∧ s.waitsBy = [] ∧ s.pid = some h) ∨
   (s.watcherPC = 2 ∧ s.slot = none ∧ s.watcherLocal = some h ∧
      s.tookBy = some Actor.watcher ∧ s.waitsBy = [Actor.watcher] ∧ s.pid = some h) ∨
   (s.watcherPC = 3 ∧ s.slot = none ∧ s.watcherLocal = none ∧
      s.tookBy = some Actor.watcher ∧ s.waitsBy = [Actor.watcher] ∧ s.pid = none))

theorem raceInv_init (h : Nat) : RaceInv h (raceInit h) := by
  refine ⟨Or.inl rfl, Or.inl ?_⟩
  simp [raceInit]

theorem raceInv_step (h : Nat) (s : RaceState) (a : Actor) (hs : RaceInv h s) :
    RaceInv h (raceStep s a) := by
  obtain ⟨hstop, hwa⟩ := hs
  cases a with
  | stopTask =>
      rcases hstop with h0 | h1
      · rcases hwa with ⟨hw, hrest⟩ | ⟨hw, hsl, hloc, ht, hwb, hp⟩ |
          ⟨hw, hsl, hloc, ht, hwb, hp⟩ | ⟨hw, hsl, hloc, ht, hwb, hp⟩ <;>
          simp_all [raceStep, stepStop, RaceInv]
      · simp_all [raceStep, stepStop, RaceInv]
  | watcher =>
      rcases hwa with ⟨hw, hsl, hloc, ht, hwb, hp⟩ | ⟨hw, hsl, hloc, ht, hwb, hp⟩ |
        ⟨hw, hsl, hloc, ht, hwb, hp⟩ | ⟨hw, hsl, hloc, ht, hwb, hp⟩ <;>
        simp_all [raceStep, stepWatcher, RaceInv]

theorem raceInv_run (h : Nat) (sched : List Actor) (s : RaceState)
    (hs : RaceInv h s) : RaceInv h (raceRun s sched) := by
  induction sched generalizing s with
  | nil => exact hs
  | cons a rest ih => exact ih _ (raceInv_step h s a hs)

/-- A stop step never moves the watcher's program counter. -/
theorem stepStop_watcherPC (s : RaceState) : (stepStop s).watcherPC = s.watcherPC := by
  unfold stepStop
  rcases s with ⟨slot, pid, spc, wpc, loc, sig, wb, tb⟩
  cases spc with
  | zero => cases pid <;> rfl
  | succ n => rfl

/-- Under the invariant, a watcher step at a counter below 3 strictly advances
that counter (and never goes past 3). -/
theorem stepWatcher_progress (h : Nat) (s : RaceState) (hs : RaceInv h s) :
    ((stepWatcher s).watcherPC = 3 ∧ 3 ≤ s.watcherPC + 2) ∨
      (stepWatcher s).watcherPC = s.watcherPC + 1 := by
  obtain ⟨-, hwa⟩ := hs
  rcases hwa with ⟨hw, hsl, hloc, ht, hwb, hp⟩ | ⟨hw, hsl, hloc, ht, hwb, hp⟩ |
    ⟨hw, hsl, hloc, ht, hwb, hp⟩ | ⟨hw, hsl, hloc, ht, hwb, hp⟩ <;>
    simp_all [stepWatcher]

/-- After a schedule containing at least three watcher steps, the watcher has
run to completion. -/
theorem raceRun_watcher_complete (h : Nat) (sched : List Actor) (s : RaceState)
    (hs : RaceInv h s) (hc : 3 ≤ s.watcherPC + sched.count Actor.watcher) :
    (raceRun s sched).watcherPC = 3 := by
  induction sched generalizing s with
  | nil =>
      simp only [List.count_nil, Nat.add_zero] at hc
      obtain ⟨-, hwa⟩ := hs
      simp only [raceRun]
      rcases hwa with ⟨hw, -⟩ | ⟨hw, -⟩ | ⟨hw, -⟩ | ⟨hw, -⟩ <;> omega
  | cons a rest ih =>
      cases a with
      | stopTask =>
          have hinv : RaceInv h (raceStep s Actor.stopTask) := raceInv_step h s _ hs
          have hpc : (raceStep s Actor.stopTask).watcherPC = s.watcherPC :=
            stepStop_watcherPC s
          refine ih _ hinv ?_
          rw [hpc]
          have : (Actor.stopTask :: rest).count Actor.watcher = rest.count Actor.watcher := by
            simp [List.count_cons]
          omega
      | watcher =>
          have hinv : RaceInv h (raceStep s Actor.watcher) := raceInv_step h s _ hs
          have hcnt : (Actor.watcher :: rest).count Actor.watcher
              = rest.count Actor.watcher + 1 := by
            simp [List.count_cons]
          rcases stepWatcher_progress h s hs with ⟨hdone, -⟩ | hadv
          · refine ih _ hinv ?_
            simp only [raceStep] at hdone ⊢
            omega
          · refine ih _ hinv ?_
            simp only [raceStep] at hadv ⊢
            omega

/-- Closed form of the producer after at least one tick: the first tick only
flips the consumed flag; every later tick appends one ordered triple. -/
theorem producerRun_succ_closed (n : Nat) :
    producerRun (n + 1) =
      { firstTickConsumed := true
        sent := List.flatten (List.replicate n
          [ReportingTask.FetchConfig, ReportingTask.PostStats, ReportingTask.ReloadConfig]) } := by
  induction n with
  | zero => rfl
  | succ n ih =>
      show producerTick (producerRun (n + 1)) = _
      rw [ih]
      simp [producerTick, List.replicate_succ']

/-- C1 — counterexample.  The claim says that once `stop()` returns after a
`start(); stop()` sequence, `isRunning()` is false and no process remains under
supervision.  In the code, `stop` only sends SIGTERM: immediately after it
returns `Ok`, the pid slot still holds the child's pid and `is_running`
still reports true; the pid is cleared only later, by the exit watcher. -/
theorem c1_stop_leaves_pid_counterexample :
    (ProcessManager.stop
        (ProcessManager.start (ProcessManager.new "cfg.json" (some true)) (some 7)).state
        KillResult.ok).result = IoOutcome.ok ∧
    (ProcessManager.stop
        (ProcessManager.start (ProcessManager.new "cfg.json" (some true)) (some 7)).state
        KillResult.ok).state.pid = some 7 ∧
    ProcessManager.is_running_value
        (ProcessManager.stop
          (ProcessManager.start (ProcessManager.new "cfg.json" (some true)) (some 7)).state
          KillResult.ok).state = true := by
  decide

/-- C1 — amended: `stop()` sends SIGTERM and returns `Ok` immediately, without
waiting on the child and without clearing the pid slot; the terminal wait and
the clearing of the stored pid are done by the exit watcher, so only after the
exit watcher has run to completion is the pid slot empty (hence `isRunning()`
false) with no child handle remaining under supervision. -/
theorem c1_amended_exit_watcher_clears (s : PMState) (kr : KillResult) (h : Nat)
    (sched : List Actor) (hc : 3 ≤ sched.count Actor.watcher) :
    (ProcessManager.stop s kr).result = IoOutcome.ok ∧
    (ProcessManager.stop s kr).state = s ∧
    (ProcessManager.stop s kr).waits = 0 ∧
    (raceRun (raceInit h) sched).pid = none ∧
    (raceRun (raceInit h) sched).slot = none := by
  have hinv := raceInv_run h sched (raceInit h) (raceInv_init h)
  have hdone := raceRun_watcher_complete h sched (raceInit h) (raceInv_init h)
    (by simpa [raceInit] using hc)
  obtain ⟨-, hwa⟩ := hinv
  have hstop : (ProcessManager.stop s kr).result = IoOutcome.ok ∧
      (ProcessManager.stop s kr).state = s ∧ (ProcessManager.stop s kr).waits = 0 := by
    cases hp : s.pid <;> simp [ProcessManager.stop, hp]
  rcases hwa with ⟨hw, -⟩ | ⟨hw, -⟩ | ⟨hw, -⟩ | ⟨hw, hsl, hloc, ht, hwb, hp⟩
  · omega
  · omega
  · omega
  · exact ⟨hstop.1, hstop.2.1, hstop.2.2, hp, hsl⟩

/-- C1 — witness for the amended theorem at a concrete schedule. -/
theorem c1_amended_witness :
    (raceRun (raceInit 7)
      [Actor.stopTask, Actor.watcher, Actor.watcher, Actor.watcher]).pid = none :=
  (c1_amended_exit_watcher_clears (ProcessManager.new "cfg.json" none) KillResult.ok 7
    [Actor.stopTask, Actor.watcher, Actor.watcher, Actor.watcher] (by decide)).2.2.2.1

/-- C2 — counterexample.  The claim says `start()` requires that no process is
owned, so a `start()` while one is owned creates no second process and does not
silently replace the stored handle.  The code checks nothing: with pid 5
stored, a successful spawn of pid 7 spawns a new process and overwrites the
slot. -/
theorem c2_start_replaces_counterexample :
    (ProcessManager.start ⟨some 5, "cfg.json", some true⟩ (some 7)).result = IoOutcome.ok ∧
    (ProcessManager.start ⟨some 5, "cfg.json", some true⟩ (some 7)).spawned = [7] ∧
    (ProcessManager.start ⟨some 5, "cfg.json", some true⟩ (some 7)).state.pid = some 7 ∧
    ¬ (ProcessManager.start ⟨some 5, "cfg.json", some true⟩ (some 7)).state.pid = some 5 := by
  decide

/-- C2 — amended: `start()` enforces no precondition.  Whenever the OS spawn
succeeds it spawns exactly one new process and overwrites the stored pid with
the new child's pid, whatever the prior state was — the at-most-one-owned
invariant is not enforced by `start()`. -/
theorem c2_amended_start_unconditional (s : PMState) (p : Nat) :
    (ProcessManager.start s (some p)).result = IoOutcome.ok ∧
    (ProcessManager.start s (some p)).state.pid = some p ∧
    (ProcessManager.start s (some p)).spawned = [p] ∧
    (ProcessManager.start s (some p)).state.configPath = s.configPath ∧
    (ProcessManager.start s (some p)).state.logout = s.logout := by
  simp [ProcessManager.start]

/-- C3: in every interleaving of `stop()` with the exit watcher after a
successful start, at most one terminal wait ever happens and the task that
performed it is the one that took the handle out of the guarded slot; in every
interleaving where the watcher runs to completion, exactly one terminal wait
happened — the watcher's — and `stop` performed none. -/
theorem c3_exactly_once_wait (h : Nat) (sched : List Actor) :
    ((raceRun (raceInit h) sched).waitsBy = [] ∨
      (raceRun (raceInit h) sched).waitsBy = [Actor.watcher]) ∧
    (∀ a, a ∈ (raceRun (raceInit h) sched).waitsBy →
      (raceRun (raceInit h) sched).tookBy = some a) ∧
    (3 ≤ sched.count Actor.watcher →
      (raceRun (raceInit h) sched).waitsBy = [Actor.watcher] ∧
      Actor.stopTask ∉ (raceRun (raceInit h) sched).waitsBy) := by
  have hinv := raceInv_run h sched (raceInit h) (raceInv_init h)
  obtain ⟨-, hwa⟩ := hinv
  constructor
  · rcases hwa with ⟨-, -, -, -, hwb, -⟩ | ⟨-, -, -, -, hwb, -⟩ |
      ⟨-, -, -, -, hwb, -⟩ | ⟨-, -, -, -, hwb, -⟩ <;> simp [hwb]
  constructor
  · intro a ha
    rcases hwa with ⟨-, -, -, ht, hwb, -⟩ | ⟨-, -, -, ht, hwb, -⟩ |
      ⟨-, -, -, ht, hwb, -⟩ | ⟨-, -, -, ht, hwb, -⟩ <;> rw [hwb] at ha <;> simp_all
  · intro hc
    have hdone := raceRun_watcher_complete h sched (raceInit h) (raceInv_init h)
      (by simpa [raceInit] using hc)
    rcases hwa with ⟨hw, -⟩ | ⟨hw, -⟩ | ⟨hw, -⟩ | ⟨hw, -, -, -, hwb, -⟩
    · omega
    · omega
    · omega
    · rw [hwb]; simp

/-- C3 — witness at a concrete interleaved schedule. -/
theorem c3_exactly_once_wait_witness :
    (raceRun (raceInit 7)
      [Actor.watcher, Actor.stopTask, Actor.watcher, Actor.watcher]).waitsBy
      = [Actor.watcher] :=
  ((c3_exactly_once_wait 7
      [Actor.watcher, Actor.stopTask, Actor.watcher, Actor.watcher]).2.2 (by decide)).1

/-- C4: the `ReloadConfig` task invokes the supervisor's `reload()` exactly
when the recorded fetch status is `Some(Updated)`; it never spawns a process,
and on `Some(Unchanged)` or no recorded status it is a complete no-op: no
reload call, no SIGHUP, state untouched. -/
theorem c4_reload_iff_updated (st : Option FetchStatus) (pm : PMState) (kr : KillResult) :
    ((handleReloadConfig st pm kr).1.reloadCalls = 1 ↔ st = some FetchStatus.Updated) ∧
    (handleReloadConfig st pm kr).1.spawned = [] ∧
    (st ≠ some FetchStatus.Updated →
      handleReloadConfig st pm kr
        = ({ reloadCalls := 0, sighups := [], spawned := [] }, pm)) := by
  rcases st with - | st
  · simp [handleReloadConfig]
  · cases st
    · simp [handleReloadConfig]
    · refine ⟨by simp [handleReloadConfig], ?_, by simp⟩
      cases hp : pm.pid <;> cases kr <;>
        simp [handleReloadConfig, ProcessManager.reload, hp]

/-- C4 — witness: with status `Unchanged`, the task is a no-op. -/
theorem c4_reload_iff_updated_witness :
    handleReloadConfig (some FetchStatus.Unchanged) (ProcessManager.new "cfg.json" none)
        KillResult.ok
      = ({ reloadCalls := 0, sighups := [], spawned := [] },
         ProcessManager.new "cfg.json" none) :=
  (c4_reload_iff_updated (some FetchStatus.Unchanged) (ProcessManager.new "cfg.json" none)
    KillResult.ok).2.2 (by decide)

/-- C5: a successful fetch records the new configuration and a status computed
by comparing it with the last applied configuration — `Unchanged` exactly when
they are equal, `Updated` exactly otherwise. -/
theorem c5_fetch_status_eq_compare (s : ConfigMState) (resp : ConfigResponse) :
    (ConfigManager.fetch s (some resp)).1 = IoOutcome.ok ∧
    (ConfigManager.fetch s (some resp)).2.config = some resp ∧
    ((ConfigManager.fetch s (some resp)).2.fetchStatus = some FetchStatus.Unchanged ↔
      s.config = some resp) ∧
    ((ConfigManager.fetch s (some resp)).2.fetchStatus = some FetchStatus.Updated ↔
      ¬ s.config = some resp) := by
  by_cases hc : s.config = some resp <;> simp [ConfigManager.fetch, hc]

/-- C6: the producer consumes its first interval tick without emitting, and
after `n` further elapsed intervals it has enqueued exactly the triple
`[FetchConfig, PostStats, ReloadConfig]` repeated `n` times — `3n` tasks in
that repeating order. -/
theorem c6_producer_triples (n : Nat) :
    (producerRun 1).sent = [] ∧
    (producerRun (n + 1)).sent =
      List.flatten (List.replicate n
        [ReportingTask.FetchConfig, ReportingTask.PostStats, ReportingTask.ReloadConfig]) ∧
    (producerRun (n + 1)).sent.length = 3 * n := by
  refine ⟨rfl, ?_, ?_⟩
  · rw [producerRun_succ_closed]
  · rw [producerRun_succ_closed]
    induction n with
    | zero => rfl
    | succ n ih => simp_all [List.replicate_succ', Nat.mul_succ]

/-- C7: `reload()` called with no stored pid returns the `NotFound` io error
("No running sing-box process found"), sends no signal, spawns nothing and
leaves the state unchanged. -/
theorem c7_reload_not_found (s : PMState) (kr : KillResult)
    (h : ProcessManager.is_running_value s = false) :
    ProcessManager.reload s kr =
      { result := IoOutcome.errNotFound, state := s, sighups := [], spawned := [] } := by
  cases hp : s.pid with
  | none => simp [ProcessManager.reload, hp]
  | some p =>
      exfalso
      simp [ProcessManager.is_running_value, ProcessManager.is_running, hp] at h

/-- C7 — witness at a freshly constructed manager. -/
theorem c7_reload_not_found_witness :
    ProcessManager.reload (ProcessManager.new "cfg.json" (some true)) KillResult.ok =
      { result := IoOutcome.errNotFound,
        state := ProcessManager.new "cfg.json" (some true),
        sighups := [], spawned := [] } :=
  c7_reload_not_found (ProcessManager.new "cfg.json" (some true)) KillResult.ok (by decide)

/-- C8 — counterexample.  The claim says the producer's interval is re-read
from the active configuration on every `FetchConfig` cycle, so a changed
interval takes effect from the next tick.  In the code the interval is captured
once at spawn: after a fetch that changes `reporting_cycle` from 5 to 10, the
next tick still fires 5 seconds on and the producer's interval is still 5,
while the spec's re-read model fires it 10 seconds on. -/
theorem c8_interval_fixed_counterexample :
    (pipelineRun
        { producerIntervalSecs := spawnReportingIntervalSecs ⟨"r", 5⟩, nextTickAt := 0,
          consumerConfig := ⟨"r", 5⟩ }
        [PipelineEvent.fetched ⟨"r", 10⟩, PipelineEvent.tick]).nextTickAt = 5 ∧
    (pipelineRunSpecModel
        { producerIntervalSecs := spawnReportingIntervalSecs ⟨"r", 5⟩, nextTickAt := 0,
          consumerConfig := ⟨"r", 5⟩ }
        [PipelineEvent.fetched ⟨"r", 10⟩, PipelineEvent.tick]).nextTickAt = 10 ∧
    (pipelineRun
        { producerIntervalSecs := spawnReportingIntervalSecs ⟨"r", 5⟩, nextTickAt := 0,
          consumerConfig := ⟨"r", 5⟩ }
        [PipelineEvent.fetched ⟨"r", 10⟩, PipelineEvent.tick]).producerIntervalSecs = 5 := by
  decide

/-- C8 — amended: the reporting interval is read from the configuration once,
when the tasks are spawned, and the producer's interval never changes
afterwards — no event sequence, fetches included, alters it. -/
theorem c8_amended_interval_constant (s : PipelineState) (evs : List PipelineEvent) :
    (pipelineRun s evs).producerIntervalSecs = s.producerIntervalSecs := by
  induction evs generalizing s with
  | nil => rfl
  | cons e rest ih =>
      cases e with
      | tick =>
          show (pipelineRun (pipelineStep s PipelineEvent.tick) rest).producerIntervalSecs = _
          rw [ih]
          rfl
      | fetched r =>
          show (pipelineRun (pipelineStep s (PipelineEvent.fetched r)) rest).producerIntervalSecs = _
          rw [ih]
          rfl

/-- C9 — counterexample.  The claim says `is_running()` uses a best-effort lock
acquisition and treats a momentarily busy lock as "not running".  The code
awaits the mutex: with the lock momentarily busy and pid 5 stored, it waits and
then returns true, where the claimed behaviour returns false without waiting. -/
theorem c9_is_running_waits_counterexample :
    ProcessManager.is_running true (some 5) = { waitedForLock := true, value := true } ∧
    is_running_specModel true (some 5) = { waitedForLock := false, value := false } ∧
    ¬ (ProcessManager.is_running true (some 5)).value
        = (is_running_specModel true (some 5)).value := by
  decide

/-- C9 — amended: `is_running()` acquires the pid mutex — waiting exactly when
the lock is momentarily busy — and then returns whether a pid is stored; a busy
lock delays the answer instead of producing a "not running" report. -/
theorem c9_amended_is_running_blocking (lockBusy : Bool) (pid : Option Nat) :
    (ProcessManager.is_running lockBusy pid).value = pid.isSome ∧
    (ProcessManager.is_running lockBusy pid).waitedForLock = lockBusy :=
  ⟨rfl, rfl⟩

/-- C10: `stop()` returns `Ok(())` in every case — no process owned, signal
delivered, or signal delivery refused by the OS (the unix kill result is
discarded) — and never surfaces a signal-delivery error; it also leaves the
stored state unchanged and performs no wait. -/
theorem c10_stop_always_ok (s : PMState) (kr : KillResult) :
    (ProcessManager.stop s kr).result = IoOutcome.ok ∧
    (ProcessManager.stop s kr).state = s ∧
    (ProcessManager.stop s kr).waits = 0 := by
  cases hp : s.pid <;> simp [ProcessManager.stop, hp]

end NextProxiesPod
